import Mathlib

/-!
Verification of the kobuki_factory_test sequencer (qnode.cpp) against its
specification.  The C++ node is embedded shallowly: the mutable QNode state
becomes an explicit `TState` record, every ROS callback becomes a function
`Msg → TState → TState`, and the polled measurement routines become pure
functions of the values their sleeps would observe.  Doubles are modelled as
`ℚ` (or `ℝ` for the yaw-wrap arithmetic), machine integers as `ℕ`/`ℤ`.
Logging is abstracted to the severity level of each emitted line.
-/

set_option maxHeartbeats 1000000

namespace KobukiFactoryTest

/-- Log severity levels of QNode::log (qnode.hpp).  Only the level of each
log line is tracked, not its formatted text. -/
inductive LogLevel where
  | Debug | Info | Warn | Error | Fatal
  deriving DecidableEq, Repr

/-- Device slots of the Robot record.  robot.hpp is not among the sources;
Modelled from the spec: the per-device status map has ~20 device slots, one
boolean verified flag plus one integer measured value each, and qnode.cpp
names exactly these Robot::Device members. -/
inductive Device where
  | V_INFO | IR_DOCK_L | IR_DOCK_C | IR_DOCK_R
  | MOTOR_L | MOTOR_R | CHARGING
  | BUTTON_0 | BUTTON_1 | BUTTON_2
  | BUMPER_L | BUMPER_C | BUMPER_R
  | W_DROP_L | W_DROP_R
  | CLIFF_L | CLIFF_C | CLIFF_R
  | PWR_JACK | PWR_DOCK
  | IMU_DEV | LED_1 | LED_2 | SOUNDS
  | D_INPUT | D_OUTPUT | A_INPUT
  deriving DecidableEq, Repr

/-- MOTOR_MAX_CURRENT from qnode.cpp line 47. -/
def MOTOR_MAX_CURRENT : ℤ := 24

/-- CLIFF_SENSOR_TESTS from qnode.cpp line 48. -/
def CLIFF_SENSOR_TESTS : ℤ := 2

/-- WHEEL_DROP_TESTS from qnode.cpp line 49. -/
def WHEEL_DROP_TESTS : ℤ := 2

/-- POWER_PLUG_TESTS from qnode.cpp line 50. -/
def POWER_PLUG_TESTS : ℤ := 1

/-- MIN_POWER_CHARGED from qnode.cpp line 51, in tenths of volt. -/
def MIN_POWER_CHARGED : ℤ := 2

/-- GYRO_CAMERA_MAX_DIFF from qnode.cpp line 53, in radians (0.05). -/
def GYRO_CAMERA_MAX_DIFF : ℚ := 5 / 100

/-- A_INPUT_MIN_THRESHOLD from qnode.cpp line 54, in millivolts. -/
def A_INPUT_MIN_THRESHOLD : ℤ := 2

/-- A_INPUT_MAX_THRESHOLD from qnode.cpp line 55, in millivolts. -/
def A_INPUT_MAX_THRESHOLD : ℤ := 4090

/-- Control loop frequency, 20.0 Hz (QNode constructor). -/
def frequency : ℕ := 20

/-- Steps of the evaluation sequence.  The EvalStep enumeration lives in
qnode.hpp which is not among the sources; Modelled from the spec: §3 fixes the
family order (identification, power-plug, buttons, LEDs, sounds, cliff,
wheel-drop, bumpers, motors, gyroscope, charging, digital I/O, analog I/O,
completion) and the member offsets are forced by the arithmetic in qnode.cpp
(button index = (step − BUTTON_0_PRESSED)/2, bumper index and action from
(step − CENTER_BUMPER_PRESSED) mod 3, postfix ++ = +1). -/
def INITIALIZATION : ℕ := 0

/-- Step waiting for the robot serial number (see run, GET_SERIAL_NUMBER). -/
def GET_SERIAL_NUMBER : ℕ := 1

/-- Step for the DC adapter plug/unplug test. -/
def TEST_DC_ADAPTER : ℕ := 2

/-- Step for the docking base plug/unplug test. -/
def TEST_DOCKING_BASE : ℕ := 3

/-- First button step: waiting for button 0 to be pressed. -/
def BUTTON_0_PRESSED : ℕ := 4

/-- Waiting for button 0 to be released. -/
def BUTTON_0_RELEASED : ℕ := 5

/-- Waiting for button 1 to be pressed. -/
def BUTTON_1_PRESSED : ℕ := 6

/-- Waiting for button 1 to be released. -/
def BUTTON_1_RELEASED : ℕ := 7

/-- Waiting for button 2 to be pressed. -/
def BUTTON_2_PRESSED : ℕ := 8

/-- Last button step: waiting for button 2 to be released. -/
def BUTTON_2_RELEASED : ℕ := 9

/-- LED confirmation step. -/
def TEST_LEDS : ℕ := 10

/-- Sounds confirmation step. -/
def TEST_SOUNDS : ℕ := 11

/-- Cliff sensors parity-counter step. -/
def TEST_CLIFF_SENSORS : ℕ := 12

/-- Wheel drop sensors parity-counter step. -/
def TEST_WHEEL_DROP_SENSORS : ℕ := 13

/-- First bumper step (offset 0 in the mod-3 arithmetic). -/
def CENTER_BUMPER_PRESSED : ℕ := 14

/-- Center bumper release step (offset 1). -/
def CENTER_BUMPER_RELEASED : ℕ := 15

/-- Turn towards the right bumper (offset 2; no event matches here). -/
def POINT_RIGHT_BUMPER : ℕ := 16

/-- Right bumper press step (offset 3). -/
def RIGHT_BUMPER_PRESSED : ℕ := 17

/-- Right bumper release step (offset 4). -/
def RIGHT_BUMPER_RELEASED : ℕ := 18

/-- Turn towards the left bumper (offset 5). -/
def POINT_LEFT_BUMPER : ℕ := 19

/-- Left bumper press step (offset 6). -/
def LEFT_BUMPER_PRESSED : ℕ := 20

/-- Last bumper step (offset 7). -/
def LEFT_BUMPER_RELEASED : ℕ := 21

/-- Align before the motors test. -/
def PREPARE_MOTORS_TEST : ℕ := 22

/-- First scripted motors move. -/
def TEST_MOTORS_FORWARD : ℕ := 23

/-- Second scripted motors move. -/
def TEST_MOTORS_BACKWARD : ℕ := 24

/-- Third scripted motors move. -/
def TEST_MOTORS_CLOCKWISE : ℕ := 25

/-- Fourth scripted motors move. -/
def TEST_MOTORS_COUNTERCW : ℕ := 26

/-- Step comparing motor peak currents against MOTOR_MAX_CURRENT. -/
def EVAL_MOTORS_CURRENT : ℕ := 27

/-- Gyroscope cross-check step. -/
def MEASURE_GYRO_ERROR : ℕ := 28

/-- Charging measurement step. -/
def MEASURE_CHARGING : ℕ := 29

/-- Digital I/O confirmation step. -/
def TEST_DIGITAL_IO_PORTS : ℕ := 30

/-- Analog input threshold-scan step. -/
def TEST_ANALOG_INPUT_PORTS : ℕ := 31

/-- Terminal step: persist the record and reset. -/
def EVALUATION_COMPLETED : ℕ := 32

/-- One row of the analog-channel table (robot.hpp indexes AI_PRE, AI_INC,
AI_MIN, AI_MAX into each row; here they are named fields). -/
structure AIRow where
  pre : ℤ
  inc : ℤ
  amin : ℤ
  amax : ℤ
  deriving DecidableEq, Repr

/-- The Unit Record: mutable state of the robot currently under test
(class Robot of robot.hpp, reconstructed from its uses in qnode.cpp).
`device_val` holds the device-specific measured value (counter, packed
version, peak current, voltage delta or bitmask), `device_ok` the verified
flags.  The serial is modelled as the raw udid word list. -/
structure Robot where
  seq_id : ℕ
  serial : List ℕ
  device_ok : Device → Bool
  device_val : Device → ℤ
  analog_in : Fin 4 → AIRow
  imu_data : Fin 5 → ℚ
  diagnostics : String
  rstate : ℕ

/-- Modelled from the spec: the Robot constructor (robot.hpp, not among the
sources) creates a fresh record with the given ordinal within session, no
serial yet, every verified flag false and every measured value zero. -/
def freshRobot (n : ℕ) : Robot where
  seq_id := n
  serial := []
  device_ok := fun _ => false
  device_val := fun _ => 0
  analog_in := fun _ => { pre := 0, inc := 0, amin := 0, amax := 0 }
  imu_data := fun _ => 0
  diagnostics := ""
  rstate := 2

/-- Robot::setSerial — adopt the udid as the record identity. -/
def setSerial (r : Robot) (udid : List ℕ) : Robot :=
  { r with serial := udid }

/-- Overwrite one verified flag. -/
def setOk (r : Robot) (d : Device) (b : Bool) : Robot :=
  { r with device_ok := Function.update r.device_ok d b }

/-- Overwrite one measured value. -/
def setVal (r : Robot) (d : Device) (v : ℤ) : Robot :=
  { r with device_val := Function.update r.device_val d v }

/-- device_val[d]++ . -/
def incVal (r : Robot) (d : Device) : Robot :=
  setVal r d (r.device_val d + 1)

/-- Modelled from the spec: Robot::buttons_ok() of robot.hpp — the three
button verified flags. -/
def buttons_ok (r : Robot) : Bool :=
  r.device_ok Device.BUTTON_0 && r.device_ok Device.BUTTON_1 &&
  r.device_ok Device.BUTTON_2

/-- Modelled from the spec: Robot::bumpers_ok() of robot.hpp. -/
def bumpers_ok (r : Robot) : Bool :=
  r.device_ok Device.BUMPER_L && r.device_ok Device.BUMPER_C &&
  r.device_ok Device.BUMPER_R

/-- Modelled from the spec: Robot::w_drop_ok() of robot.hpp. -/
def w_drop_ok (r : Robot) : Bool :=
  r.device_ok Device.W_DROP_L && r.device_ok Device.W_DROP_R

/-- Modelled from the spec: Robot::cliffs_ok() of robot.hpp. -/
def cliffs_ok (r : Robot) : Bool :=
  r.device_ok Device.CLIFF_L && r.device_ok Device.CLIFF_C &&
  r.device_ok Device.CLIFF_R

/-- Modelled from the spec: Robot::pwr_src_ok() of robot.hpp. -/
def pwr_src_ok (r : Robot) : Bool :=
  r.device_ok Device.PWR_JACK && r.device_ok Device.PWR_DOCK

/-- Modelled from the spec: Robot::motors_ok() of robot.hpp. -/
def motors_ok (r : Robot) : Bool :=
  r.device_ok Device.MOTOR_L && r.device_ok Device.MOTOR_R

/-- Modelled from the spec: Robot::ir_dock_ok() of robot.hpp. -/
def ir_dock_ok (r : Robot) : Bool :=
  r.device_ok Device.IR_DOCK_L && r.device_ok Device.IR_DOCK_C &&
  r.device_ok Device.IR_DOCK_R

/-- Every device slot, for Robot::all_ok. -/
def allDevices : List Device :=
  [Device.V_INFO, Device.IR_DOCK_L, Device.IR_DOCK_C, Device.IR_DOCK_R,
   Device.MOTOR_L, Device.MOTOR_R, Device.CHARGING,
   Device.BUTTON_0, Device.BUTTON_1, Device.BUTTON_2,
   Device.BUMPER_L, Device.BUMPER_C, Device.BUMPER_R,
   Device.W_DROP_L, Device.W_DROP_R,
   Device.CLIFF_L, Device.CLIFF_C, Device.CLIFF_R,
   Device.PWR_JACK, Device.PWR_DOCK,
   Device.IMU_DEV, Device.LED_1, Device.LED_2, Device.SOUNDS,
   Device.D_INPUT, Device.D_OUTPUT, Device.A_INPUT]

/-- Modelled from the spec: Robot::all_ok() of robot.hpp — overall pass is
the conjunction of every device verified flag (spec §8). -/
def all_ok (r : Robot) : Bool :=
  allDevices.all (fun d => r.device_ok d)

/-- The mutable QNode state: Test Sequencer step index, the optional Unit
Record, the Evaluated Ledger, the Result Sink rows, the user-answer and
motion flags, the one-shot timer, the published velocity commands and the
emitted log/prompt severities. -/
structure TState where
  current_step : ℕ
  under_test : Option Robot
  evaluated : List Robot
  resultSink : List Robot
  answer_req : Bool
  timer_active : Bool
  timerPending : List ℚ
  cmds : List (ℚ × ℚ)
  logs : List LogLevel
  prompts : List LogLevel

/-- QNode::log — only the severity is recorded. -/
def addLog (lv : LogLevel) (st : TState) : TState :=
  { st with logs := st.logs ++ [lv] }

/-- showUserMsg — logs and raises a user prompt; only the severity is kept. -/
def showUserMsg (lv : LogLevel) (st : TState) : TState :=
  { st with prompts := st.prompts ++ [lv] }

/-- hideUserMsg — presentation only, no core state change. -/
def hideUserMsg (st : TState) : TState := st

/-- kobuki_msgs::VersionInfo (external message definition). -/
structure VersionInfoMsg where
  udid : List ℕ
  firmware : ℕ
  hardware : ℕ
  software : ℕ

/-- kobuki_msgs::ButtonEvent. -/
structure ButtonEventMsg where
  button : ℕ
  state : ℕ

/-- kobuki_msgs::BumperEvent. -/
structure BumperEventMsg where
  bumper : ℕ
  state : ℕ

/-- kobuki_msgs::WheelDropEvent. -/
structure WheelDropEventMsg where
  wheel : ℕ
  state : ℕ

/-- kobuki_msgs::CliffEvent. -/
structure CliffEventMsg where
  sensor : ℕ
  state : ℕ

/-- kobuki_msgs::PowerSystemEvent. -/
structure PowerSystemEventMsg where
  event : ℕ

/-- kobuki_msgs::SensorState (the fields qnode.cpp reads). -/
structure SensorStateMsg where
  current : List ℕ
  charger : ℕ
  battery : ℕ
  analog_input : List ℕ

/-- kobuki_msgs::DigitalInputEvent. -/
structure DigitalInputEventMsg where
  values : List Bool

/-- diagnostic_msgs::KeyValue. -/
structure DiagKV where
  key : String
  value : String

/-- diagnostic_msgs::DiagnosticStatus. -/
structure DiagStatus where
  name : String
  level : ℕ
  message : String
  values : List DiagKV

/-- diagnostic_msgs::DiagnosticArray. -/
structure DiagnosticArrayMsg where
  status : List DiagStatus

/-- diagnostics_toplevel_state message: a bare DiagnosticStatus level. -/
structure DiagnosticStatusMsg where
  level : ℕ

/-- kobuki_msgs::RobotStateEvent. -/
structure RobotStateEventMsg where
  state : ℕ

/-- ButtonEvent::RELEASED = 0 (kobuki_msgs). -/
def RELEASED : ℕ := 0

/-- ButtonEvent::PRESSED = 1 (kobuki_msgs). -/
def PRESSED : ℕ := 1

/-- ButtonEvent::Button0 = 0 (kobuki_msgs). -/
def Button0 : ℕ := 0

/-- ButtonEvent::Button2 = 2 (kobuki_msgs). -/
def Button2 : ℕ := 2

/-- WheelDropEvent::LEFT = 0 (kobuki_msgs). -/
def WHEEL_LEFT : ℕ := 0

/-- WheelDropEvent::RAISED = 0 (kobuki_msgs). -/
def RAISED : ℕ := 0

/-- WheelDropEvent::DROPPED = 1 (kobuki_msgs). -/
def DROPPED : ℕ := 1

/-- CliffEvent::LEFT = 0 (kobuki_msgs). -/
def CLIFF_SENSOR_LEFT : ℕ := 0

/-- CliffEvent::RIGHT = 2 (kobuki_msgs). -/
def CLIFF_SENSOR_RIGHT : ℕ := 2

/-- CliffEvent::FLOOR = 0 (kobuki_msgs). -/
def FLOOR_STATE : ℕ := 0

/-- CliffEvent::CLIFF = 1 (kobuki_msgs). -/
def CLIFF_STATE : ℕ := 1

/-- PowerSystemEvent::UNPLUGGED = 0 (kobuki_msgs). -/
def UNPLUGGED : ℕ := 0

/-- PowerSystemEvent::PLUGGED_TO_ADAPTER = 1 (kobuki_msgs). -/
def PLUGGED_TO_ADAPTER : ℕ := 1

/-- PowerSystemEvent::PLUGGED_TO_DOCKBASE = 2 (kobuki_msgs). -/
def PLUGGED_TO_DOCKBASE : ℕ := 2

/-- PowerSystemEvent::CHARGE_COMPLETED = 3 (kobuki_msgs). -/
def CHARGE_COMPLETED : ℕ := 3

/-- PowerSystemEvent::BATTERY_LOW = 4 (kobuki_msgs). -/
def BATTERY_LOW : ℕ := 4

/-- PowerSystemEvent::BATTERY_CRITICAL = 5 (kobuki_msgs). -/
def BATTERY_CRITICAL : ℕ := 5

/-- RobotStateEvent::ONLINE = 1 (kobuki_msgs). -/
def ONLINE : ℕ := 1

/-- RobotStateEvent::OFFLINE = 0 (kobuki_msgs). -/
def OFFLINE : ℕ := 0

/-- DiagnosticStatus::OK = 0, matching Robot::State OK. -/
def DIAG_OK : ℕ := 0

/-- TEST_BUMPERS_V = 0.1 m/s (qnode.cpp line 42). -/
def TEST_BUMPERS_V : ℚ := 1 / 10

/-- Scripted Motion Controller state transition for a one-shot timer stop:
cancels any pending delayed action (ros::Timer::stop). -/
def timerStop (st : TState) : TState :=
  { st with timerPending := [] }

/-- Arm the one-shot timer with period t (ros::Timer::setPeriod + start). -/
def timerStart (t : ℚ) (st : TState) : TState :=
  { st with timerPending := st.timerPending ++ [t] }

/-- QNode::move (qnode.cpp lines 519-539): publish the velocity command
immediately; for a positive duration either sleep and publish zero velocity
(blocking) or cancel-and-replace the one-shot timer and mark motion active. -/
def move (v w t : ℚ) (blocking : Bool) (st : TState) : TState :=
  let st1 := { st with cmds := st.cmds ++ [(v, w)] }
  if 0 < t then
    if blocking then
      { st1 with cmds := st1.cmds ++ [(0, 0)] }
    else
      { timerStart t (timerStop st1) with timer_active := true }
  else st1

/-- QNode::timerEventCB (qnode.cpp lines 512-517): the delayed action fires,
consuming the pending one-shot entry, advancing the step, clearing the motion
flag and publishing a zero velocity command. -/
def timerEventCB (st : TState) : TState :=
  move 0 0 0 false
    { st with current_step := st.current_step + 1,
              timer_active := false,
              timerPending := [] }

/-- QNode::saveResults (qnode.cpp lines 780-788): append the record to the
Result Sink (saveToCSVFile) and to the Evaluated Ledger, then clear the
current record. -/
def saveResults (st : TState) : TState :=
  match st.under_test with
  | none => st
  | some r =>
    { st with logs := st.logs ++ [LogLevel.Info],
              resultSink := st.resultSink ++ [r],
              evaluated := st.evaluated ++ [r],
              under_test := none }

/-- Ledger lookup (RobotList::get by serial in qnode.cpp line 109). -/
def ledgerHas (l : List Robot) (s : List ℕ) : Bool :=
  l.any (fun r => r.serial = s)

/-- Version packing of qnode.cpp lines 118-120: device_val[V_INFO] |= fw,
<<= 16, |= hw, <<= 32, |= sw, on the nonnegative bit pattern. -/
def packVersion (v : ℤ) (fw hw sw : ℕ) : ℤ :=
  ((((v.toNat ||| fw) <<< 16) ||| hw) <<< 32 ||| sw : ℕ)

/-- Duplicate-serial check and version adoption, the part of
QNode::versionInfoCB after the serial is set (qnode.cpp lines 107-124). -/
def versionCheck (msg : VersionInfoMsg) (st : TState) : TState :=
  match st.under_test with
  | none => st
  | some r =>
    if ledgerHas st.evaluated r.serial then
      { showUserMsg LogLevel.Error st with under_test := none }
    else
      let r2 := setOk (setVal r Device.V_INFO
        (packVersion (r.device_val Device.V_INFO)
          msg.firmware msg.hardware msg.software)) Device.V_INFO true
      addLog LogLevel.Info { st with under_test := some r2 }

/-- QNode::versionInfoCB (qnode.cpp lines 84-125). -/
def versionInfoCB (msg : VersionInfoMsg) (st : TState) : TState :=
  match st.under_test with
  | none => st
  | some r =>
    if r.device_ok Device.V_INFO then
      if msg.udid = r.serial then
        addLog LogLevel.Debug st
      else
        versionCheck msg
          (addLog LogLevel.Warn
            { st with under_test := some (setSerial r msg.udid) })
    else
      versionCheck msg { st with under_test := some (setSerial r msg.udid) }

/-- Motor current update of qnode.cpp lines 132-135: running maximum of the
uint8-truncated stored peak and the telemetry sample. -/
def updMotors (r : Robot) (c0 c1 : ℕ) : Robot :=
  setVal (setVal r Device.MOTOR_L
      (max ((r.device_val Device.MOTOR_L).toNat % 256) c0 : ℕ))
    Device.MOTOR_R
      (max ((r.device_val Device.MOTOR_R).toNat % 256) c1 : ℕ)

/-- Analog row update of qnode.cpp lines 146-152. -/
def updRow (row : AIRow) (v : ℤ) : AIRow :=
  { pre := v, inc := v - row.pre, amin := min row.amin v, amax := max row.amax v }

/-- Analog table update of qnode.cpp lines 145-153 (4 channels). -/
def updAnalog (r : Robot) (vals : List ℤ) : Robot :=
  { r with analog_in := fun i =>
      if h : (i : ℕ) < vals.length then updRow (r.analog_in i) (vals.get ⟨i, h⟩)
      else r.analog_in i }

/-- QNode::sensorsCoreCB (qnode.cpp lines 127-155). -/
def sensorsCoreCB (msg : SensorStateMsg) (st : TState) : TState :=
  match st.under_test with
  | none => st
  | some r =>
    if TEST_MOTORS_FORWARD ≤ st.current_step ∧
       st.current_step ≤ TEST_MOTORS_COUNTERCW then
      let r2 := updMotors r (msg.current.getD 0 0) (msg.current.getD 1 0)
      { st with under_test := some r2 }
    else if st.current_step = MEASURE_CHARGING ∧ msg.charger ≠ 0 then
      { st with under_test := some (setVal r Device.CHARGING msg.battery) }
    else if st.current_step = TEST_ANALOG_INPUT_PORTS then
      let r2 := updAnalog r (msg.analog_input.map (fun n => (n : ℤ)))
      { st with under_test := some r2 }
    else st

/-- Robot::BUTTON_0 + button (qnode.cpp line 245). -/
def buttonDevice (b : ℕ) : Device :=
  match b with
  | 0 => Device.BUTTON_0
  | 1 => Device.BUTTON_1
  | _ => Device.BUTTON_2

/-- QNode::buttonEventCB (qnode.cpp lines 193-259). -/
def buttonEventCB (msg : ButtonEventMsg) (st : TState) : TState :=
  match st.under_test with
  | none => st
  | some r =>
    if (st.current_step = TEST_LEDS ∨ st.current_step = TEST_SOUNDS ∨
        st.current_step = TEST_DIGITAL_IO_PORTS) ∧
       st.answer_req = true ∧ msg.state = RELEASED then
      if msg.button = Button0 ∨ msg.button = Button2 then
        let pass := msg.button = Button0
        let r2 :=
          if st.current_step = TEST_LEDS then
            setOk (setOk r Device.LED_1 pass) Device.LED_2 pass
          else if st.current_step = TEST_SOUNDS then
            setOk r Device.SOUNDS pass
          else
            setOk (setOk r Device.D_INPUT pass) Device.D_OUTPUT pass
        addLog (if pass then LogLevel.Info else LogLevel.Warn)
          { st with under_test := some r2,
                    answer_req := false,
                    current_step := st.current_step + 1 }
      else st
    else if buttons_ok r then st
    else if st.current_step < BUTTON_0_PRESSED ∨
            BUTTON_2_RELEASED < st.current_step then
      addLog LogLevel.Debug st
    else
      let expected_button := (st.current_step - BUTTON_0_PRESSED) / 2
      let expected_action := ((st.current_step - BUTTON_0_PRESSED) % 2) ^^^ 1
      if msg.button = expected_button ∧ msg.state = expected_action then
        let dev := buttonDevice msg.button
        let r2 := if msg.state = RELEASED then setOk r dev true else r
        let st2 :=
          if st.current_step = BUTTON_2_RELEASED then
            addLog LogLevel.Info (addLog LogLevel.Info st)
          else addLog LogLevel.Info st
        { st2 with under_test := some r2, current_step := st.current_step + 1 }
      else
        addLog LogLevel.Warn st

/-- Robot::BUMPER_L + bumper (qnode.cpp lines 277, 284). -/
def bumperDevice (b : ℕ) : Device :=
  match b with
  | 0 => Device.BUMPER_L
  | 1 => Device.BUMPER_C
  | _ => Device.BUMPER_R

/-- QNode::bumperEventCB (qnode.cpp lines 261-293). -/
def bumperEventCB (msg : BumperEventMsg) (st : TState) : TState :=
  match st.under_test with
  | none => st
  | some r =>
    if bumpers_ok r then st
    else if st.current_step < CENTER_BUMPER_PRESSED ∨
            LEFT_BUMPER_RELEASED < st.current_step then
      addLog LogLevel.Debug st
    else
      let expected_bumper :=
        ((st.current_step - CENTER_BUMPER_PRESSED) / 3 + 1) % 3
      let expected_action :=
        ((st.current_step - CENTER_BUMPER_PRESSED) % 3) ^^^ 1
      if msg.bumper = expected_bumper ∧ msg.state = expected_action then
        let dev := bumperDevice msg.bumper
        let r2 := incVal r dev
        let st1 := addLog LogLevel.Info { st with under_test := some r2 }
        if msg.state = PRESSED then
          move (-TEST_BUMPERS_V) 0 (3 / 2) false
            { st1 with current_step := st.current_step + 1 }
        else
          { st1 with under_test := some (setOk r2 dev true) }
      else
        addLog LogLevel.Warn st

/-- Wheel device selection (qnode.cpp lines 299-300). -/
def wheelDevice (w : ℕ) : Device :=
  if w = WHEEL_LEFT then Device.W_DROP_L else Device.W_DROP_R

/-- QNode::wDropEventCB (qnode.cpp lines 295-322). -/
def wDropEventCB (msg : WheelDropEventMsg) (st : TState) : TState :=
  match st.under_test with
  | none => st
  | some r =>
    if st.current_step ≠ TEST_WHEEL_DROP_SENSORS then st
    else
      let dev := wheelDevice msg.wheel
      if r.device_ok dev then st
      else if (msg.state = DROPPED ∧ r.device_val dev % 2 = 0) ∨
              (msg.state = RAISED ∧ r.device_val dev % 2 = 1) then
        let r2 := incVal r dev
        if WHEEL_DROP_TESTS * 2 ≤ r2.device_val dev then
          let r3 := setOk r2 dev true
          let st1 := addLog LogLevel.Info (addLog LogLevel.Info st)
          if w_drop_ok r3 then
            { st1 with under_test := some r3,
                       current_step := st.current_step + 1 }
          else
            { st1 with under_test := some r3 }
        else
          addLog LogLevel.Info { st with under_test := some r2 }
      else
        addLog LogLevel.Warn st

/-- Cliff sensor device selection (qnode.cpp lines 328-330). -/
def cliffDevice (s : ℕ) : Device :=
  if s = CLIFF_SENSOR_LEFT then Device.CLIFF_L
  else if s = CLIFF_SENSOR_RIGHT then Device.CLIFF_R
  else Device.CLIFF_C

/-- QNode::cliffEventCB (qnode.cpp lines 324-355). -/
def cliffEventCB (msg : CliffEventMsg) (st : TState) : TState :=
  match st.under_test with
  | none => st
  | some r =>
    if st.current_step ≠ TEST_CLIFF_SENSORS then st
    else
      let dev := cliffDevice msg.sensor
      if r.device_ok dev then st
      else if (msg.state = CLIFF_STATE ∧ r.device_val dev % 2 = 0) ∨
              (msg.state = FLOOR_STATE ∧ r.device_val dev % 2 = 1) then
        let r2 := incVal r dev
        if CLIFF_SENSOR_TESTS * 2 ≤ r2.device_val dev then
          let r3 := setOk r2 dev true
          let st1 := addLog LogLevel.Info (addLog LogLevel.Info st)
          if cliffs_ok r3 then
            { st1 with under_test := some r3,
                       current_step := st.current_step + 1 }
          else
            { st1 with under_test := some r3 }
        else
          addLog LogLevel.Info { st with under_test := some r2 }
      else
        addLog LogLevel.Warn st

/-- Power device selection (qnode.cpp line 372). -/
def powerDevice (s : ℕ) : Device :=
  if s = TEST_DC_ADAPTER then Device.PWR_JACK else Device.PWR_DOCK

/-- QNode::powerEventCB (qnode.cpp lines 357-400). -/
def powerEventCB (msg : PowerSystemEventMsg) (st : TState) : TState :=
  match st.under_test with
  | none => st
  | some r =>
    if pwr_src_ok r then st
    else if st.current_step ≠ TEST_DC_ADAPTER ∧
            st.current_step ≠ TEST_DOCKING_BASE then
      if msg.event ≠ CHARGE_COMPLETED ∧ msg.event ≠ BATTERY_LOW ∧
         msg.event ≠ BATTERY_CRITICAL then
        addLog LogLevel.Warn st
      else st
    else
      let dev := powerDevice st.current_step
      if r.device_ok dev then st
      else if (((msg.event = PLUGGED_TO_ADAPTER ∧
                 st.current_step = TEST_DC_ADAPTER) ∨
                (msg.event = PLUGGED_TO_DOCKBASE ∧
                 st.current_step = TEST_DOCKING_BASE)) ∧
               r.device_val dev % 2 = 0) ∨
              (msg.event = UNPLUGGED ∧ r.device_val dev % 2 = 1) then
        let r2 := incVal r dev
        if POWER_PLUG_TESTS * 2 ≤ r2.device_val dev then
          addLog LogLevel.Info (addLog LogLevel.Info
            { st with under_test := some (setOk r2 dev true),
                      current_step := st.current_step + 1 })
        else
          addLog LogLevel.Info { st with under_test := some r2 }
      else
        addLog LogLevel.Warn st

/-- Index of the first false entry, mirroring the early-return loop of
qnode.cpp lines 410-418. -/
def firstFalse : List Bool → Option ℕ
  | [] => none
  | b :: rest => if b = false then some 0 else (firstFalse rest).map (· + 1)

/-- QNode::inputEventCB (qnode.cpp lines 402-430).  Digital output publishes
are outside the modelled state. -/
def inputEventCB (msg : DigitalInputEventMsg) (st : TState) : TState :=
  match st.under_test with
  | none => st
  | some r =>
    if st.current_step ≠ TEST_DIGITAL_IO_PORTS ∨
       r.device_ok Device.D_INPUT then st
    else
      match firstFalse msg.values with
      | some i =>
        { st with under_test := some (setVal r Device.D_INPUT
            (((r.device_val Device.D_INPUT).toNat ||| 2 ^ i : ℕ))) }
      | none =>
        if r.device_val Device.D_INPUT = 15 then
          { showUserMsg LogLevel.Info st with answer_req := true }
        else st

/-- Rendering of one diagnostic entry (qnode.cpp lines 438-445). -/
def renderStatus (s : DiagStatus) : String :=
  "Device: " ++ s.name ++ "\n" ++ "Level: " ++ toString s.level ++ "\n" ++
  "Message: " ++ s.message ++ "\n" ++
  String.join (s.values.map (fun kv => "   " ++ kv.key ++ ": " ++ kv.value ++ "\n"))

/-- QNode::diagnosticsCB (qnode.cpp lines 432-449). -/
def diagnosticsCB (msg : DiagnosticArrayMsg) (st : TState) : TState :=
  match st.under_test with
  | none => st
  | some r =>
    let r2 := { r with diagnostics := String.join (msg.status.map renderStatus) }
    { st with under_test := some r2 }

/-- QNode::robotStatusCB (qnode.cpp lines 451-466). -/
def robotStatusCB (msg : DiagnosticStatusMsg) (st : TState) : TState :=
  match st.under_test with
  | none => st
  | some r =>
    if r.rstate = DIAG_OK then st
    else
      addLog (if msg.level = DIAG_OK then LogLevel.Info else LogLevel.Warn)
        { st with under_test := some { r with rstate := msg.level } }

/-- QNode::robotEventCB (qnode.cpp lines 468-510).  On ONLINE the source
sets current_step = TEST_DIGITAL_IO_PORTS (with the comment
TODO INITIALIZATION marking the intended value). -/
def robotEventCB (msg : RobotStateEventMsg) (st : TState) : TState :=
  if msg.state = ONLINE then
    let st1 :=
      match st.under_test with
      | some _ => saveResults (addLog LogLevel.Warn st)
      | none => addLog LogLevel.Info st
    { st1 with current_step := TEST_DIGITAL_IO_PORTS,
               under_test := some (freshRobot st1.evaluated.length) }
  else if msg.state = OFFLINE then
    match st.under_test with
    | some _ => saveResults (addLog LogLevel.Info st)
    | none => addLog LogLevel.Warn st
  else
    addLog LogLevel.Warn st

/-- One pass of the control loop body after spinOnce (qnode.cpp lines
844-858): skip everything when no unit is under test, suspend the per-tick
step action while a scripted motion is in flight, otherwise run the current
step's action (the switch statement, abstracted as the `action` argument). -/
def runTick (action : TState → TState) (st : TState) : TState :=
  match st.under_test with
  | none => st
  | some _ => if st.timer_active then st else action st

/-- The EVALUATION_COMPLETED case of QNode::run (qnode.cpp lines 976-981):
show the verdict, persist the record and reset the step to INITIALIZATION. -/
def evaluationCompletedAction (st : TState) : TState :=
  match st.under_test with
  | none => st
  | some _ =>
    { saveResults (showUserMsg LogLevel.Info st) with
        current_step := INITIALIZATION }

/-- Yaw-wrap computation of QNode::testIMU, qnode.cpp line 633:
if diff > π subtract 2π, else if diff < −π add 2π.  The double constant
M_PI is the parameter `pi`; the verification theorems instantiate it with
`Real.pi`. -/
def wrapYaw {α : Type} [LinearOrderedField α] (pi d : α) : α :=
  if d > pi then d - 2 * pi
  else if d < -pi then d + 2 * pi
  else d

/-- Gyroscope verdict of QNode::testIMU, qnode.cpp lines 649-657: set the
IMU verified flag when the two stored wrapped differences (imu_data[1] and
imu_data[3]) agree within GYRO_CAMERA_MAX_DIFF.  Doubles are modelled as ℚ. -/
def testIMUCheck (r : Robot) : Robot :=
  if |r.imu_data 1 - r.imu_data 3| ≤ GYRO_CAMERA_MAX_DIFF then
    setOk r Device.IMU_DEV true
  else r

/-- The wait loop of QNode::measureCharge, qnode.cpp lines 670-671: poll
the stored charging value (updated by sensorsCoreCB between sleeps, here
the environment function w) until it is nonzero or the fuel runs out. -/
def chargeLoop (w : ℕ → ℕ) : ℕ → ℕ → ℕ → ℕ
  | 0, _, val => val
  | fuel + 1, i, val => if val = 0 then chargeLoop w fuel (i + 1) (w i) else val

/-- Outcome of one charge measurement. -/
structure ChargeResult where
  verified : Bool
  aborted : Bool
  errorCount : ℕ
  delta : ℤ
  deriving DecidableEq, Repr

/-- QNode::measureCharge, qnode.cpp lines 662-700.  v0 is the stored
charging value on entry, w i the value observed after the i-th wait-loop
sleep, v1 and v2 the uint8 battery samples read after the settle interval
and after the MEASURE_CHARGE_TIME window.  The loop bound 40·frequency
gives 800 polls (the 40-second timeout budget). -/
def measureCharge (v0 : ℕ) (w : ℕ → ℕ) (v1 v2 : ℕ) : ChargeResult :=
  let val := chargeLoop w (40 * frequency) 0 v0
  if val = 0 then
    { verified := false, aborted := true, errorCount := 1, delta := 0 }
  else
    let d : ℤ := (v2 : ℤ) - (v1 : ℤ)
    { verified := decide (MIN_POWER_CHARGED ≤ d), aborted := false,
      errorCount := 0, delta := d }

/-- Low 16 bits of device_val[A_INPUT]: the indicator pulse countdown
(qnode.cpp line 717). -/
def aiCountdown (val : ℕ) : ℕ := val &&& 0xFFFF

/-- Channel i is covered-low: bit 16+i of device_val[A_INPUT]
(MIN_MASK = pow(2,i) << 16, qnode.cpp line 730). -/
def covLow (val : ℕ) (i : ℕ) : Bool := val.testBit (16 + i)

/-- Channel i is covered-high: bit 24+i (MAX_MASK = pow(2,i) << 24,
qnode.cpp line 731). -/
def covHigh (val : ℕ) (i : ℕ) : Bool := val.testBit (24 + i)

/-- One threshold check of qnode.cpp lines 733-752: when the mask bit at
position p is still clear and the threshold condition holds, set the bit and
OR in an int(frequency) pulse (switch an indicator LED on for one second). -/
def maskStep (p : ℕ) (c : Prop) [Decidable c] (val : ℕ) : ℕ :=
  if val &&& 2 ^ p = 0 ∧ c then (val ||| 2 ^ p) ||| frequency else val

/-- MIN_MASK check of qnode.cpp lines 733-742 (MIN_MASK = pow(2,i) << 16). -/
def coverLowStep (mins : Fin 4 → ℤ) (i : Fin 4) (val : ℕ) : ℕ :=
  maskStep (16 + (i : ℕ)) (mins i ≤ A_INPUT_MIN_THRESHOLD) val

/-- MAX_MASK check of qnode.cpp lines 743-752 (MAX_MASK = pow(2,i) << 24). -/
def coverHighStep (maxs : Fin 4 → ℤ) (i : Fin 4) (val : ℕ) : ℕ :=
  maskStep (24 + (i : ℕ)) (A_INPUT_MAX_THRESHOLD ≤ maxs i) val

/-- Per-channel body of the threshold loop, qnode.cpp lines 729-753: the
min check followed by the max check. -/
def coverStep (mins maxs : Fin 4 → ℤ) (val : ℕ) (i : Fin 4) : ℕ :=
  coverHighStep maxs i (coverLowStep mins i val)

/-- One tick of QNode::testAnalogIn on the A_INPUT bit pattern, qnode.cpp
lines 702-765: reset on the first call, decrement a running pulse countdown,
run the four per-channel threshold checks in channel order, and report
completion exactly at the pattern 0x0F0F0000. -/
def analogTick (first_call : Bool) (mins maxs : Fin 4 → ℤ) (val0 : ℕ) :
    ℕ × Bool :=
  let v0 := if first_call then 0 else val0
  let v1 := if 0 < aiCountdown v0 then v0 - 1 else v0
  let v2 := (List.finRange 4).foldl (coverStep mins maxs) v1
  (v2, v2 = 0x0F0F0000)

/-- QNode::testAnalogIn lifted to the full state: store the new bit pattern
and, on completion, set the A_INPUT verified flag and advance the step. -/
def testAnalogIn (first_call : Bool) (st : TState) : TState :=
  match st.under_test with
  | none => st
  | some r =>
    let res := analogTick first_call (fun i => (r.analog_in i).amin)
                 (fun i => (r.analog_in i).amax)
                 (r.device_val Device.A_INPUT).toNat
    let r2 := setVal r Device.A_INPUT (res.1 : ℤ)
    if res.2 then
      addLog LogLevel.Info
        { st with under_test := some (setOk r2 Device.A_INPUT true),
                  current_step := st.current_step + 1 }
    else
      { st with under_test := some r2 }

/-- Verified flag of a device in the current Unit Record (false when idle). -/
def okOf (st : TState) (d : Device) : Bool :=
  match st.under_test with
  | none => false
  | some r => r.device_ok d

/-- Measured value of a device in the current Unit Record (0 when idle). -/
def valOf (st : TState) (d : Device) : ℤ :=
  match st.under_test with
  | none => 0
  | some r => r.device_val d

/-- Sequence id of the current Unit Record, when one exists. -/
def seqOf (st : TState) : Option ℕ :=
  st.under_test.map (fun r => r.seq_id)

/-- The idle sequencer state right after init(). -/
def emptyState : TState where
  current_step := INITIALIZATION
  under_test := none
  evaluated := []
  resultSink := []
  answer_req := false
  timer_active := false
  timerPending := []
  cmds := []
  logs := []
  prompts := []

/-- A state with robot r under test at step s. -/
def withRobot (r : Robot) (s : ℕ) : TState :=
  { emptyState with under_test := some r, current_step := s }

/-- A test robot whose two stored wrapped yaw differences are d1 and d3. -/
def gyroExample (d1 d3 : ℚ) : Robot :=
  { freshRobot 0 with imu_data := fun i =>
      if (i : ℕ) = 1 then d1 else if (i : ℕ) = 3 then d3 else 0 }

/-- A state mid-evaluation (analog step) with a unit of serial [7] under
test, used to evaluate the behaviour of a unit-online event. -/
def c4State : TState :=
  withRobot (setSerial (freshRobot 0) [7]) TEST_ANALOG_INPUT_PORTS

/-- A DC-adapter test state whose PWR_JACK counter already holds 1 (one
plug event seen), one unplug short of the power-plug round-trip. -/
def pwrWitnessState : TState :=
  { withRobot (freshRobot 0) TEST_DC_ADAPTER with
      under_test := some (setVal (freshRobot 0) Device.PWR_JACK 1) }

/-- The six correctly ordered button events (press then release of buttons
0, 1, 2) applied from the first button step. -/
def buttonRun : TState :=
  buttonEventCB ⟨2, 0⟩ (buttonEventCB ⟨2, 1⟩ (buttonEventCB ⟨1, 0⟩
    (buttonEventCB ⟨1, 1⟩ (buttonEventCB ⟨0, 0⟩ (buttonEventCB ⟨0, 1⟩
      (withRobot (freshRobot 0) BUTTON_0_PRESSED))))))

/-- C10: every inbound event callback returns immediately and changes no
state when no Unit Record exists — events arriving while no unit is under
test have no effect. -/
theorem C10_no_unit_callbacks_noop :
    (∀ (m : VersionInfoMsg) (st : TState), st.under_test = none →
       versionInfoCB m st = st) ∧
    (∀ (m : SensorStateMsg) (st : TState), st.under_test = none →
       sensorsCoreCB m st = st) ∧
    (∀ (m : ButtonEventMsg) (st : TState), st.under_test = none →
       buttonEventCB m st = st) ∧
    (∀ (m : BumperEventMsg) (st : TState), st.under_test = none →
       bumperEventCB m st = st) ∧
    (∀ (m : WheelDropEventMsg) (st : TState), st.under_test = none →
       wDropEventCB m st = st) ∧
    (∀ (m : CliffEventMsg) (st : TState), st.under_test = none →
       cliffEventCB m st = st) ∧
    (∀ (m : PowerSystemEventMsg) (st : TState), st.under_test = none →
       powerEventCB m st = st) ∧
    (∀ (m : DigitalInputEventMsg) (st : TState), st.under_test = none →
       inputEventCB m st = st) ∧
    (∀ (m : DiagnosticArrayMsg) (st : TState), st.under_test = none →
       diagnosticsCB m st = st) ∧
    (∀ (m : DiagnosticStatusMsg) (st : TState), st.under_test = none →
       robotStatusCB m st = st) := by
  refine ⟨?_, ?_, ?_, ?_, ?_, ?_, ?_, ?_, ?_, ?_⟩ <;> intro m st h <;>
    simp [versionInfoCB, sensorsCoreCB, buttonEventCB, bumperEventCB,
          wDropEventCB, cliffEventCB, powerEventCB, inputEventCB,
          diagnosticsCB, robotStatusCB, h]

/-- Witness for C10 at the concrete idle state. -/
theorem C10_no_unit_callbacks_noop_witness :
    versionInfoCB ⟨[], 0, 0, 0⟩ emptyState = emptyState ∧
    buttonEventCB ⟨0, 1⟩ emptyState = emptyState :=
  ⟨C10_no_unit_callbacks_noop.1 _ _ rfl,
   C10_no_unit_callbacks_noop.2.2.1 _ _ rfl⟩

/-- C9: a non-blocking move with positive duration issues the velocity
command immediately, arms exactly one pending delayed action (cancelling
any prior one), marks motion active; the delayed action zeroes velocity and
advances the step; and while motion is active the per-tick step action is
suspended. -/
theorem C9_scripted_motion (v w t : ℚ) (st : TState) (ht : 0 < t) :
    (move v w t false st).cmds = st.cmds ++ [(v, w)] ∧
    (move v w t false st).timerPending = [t] ∧
    (move v w t false st).timer_active = true ∧
    (∀ st2 : TState, (move v w t false st2).timerPending.length ≤ 1) ∧
    (timerEventCB st).current_step = st.current_step + 1 ∧
    (timerEventCB st).timer_active = false ∧
    (timerEventCB st).cmds = st.cmds ++ [(0, 0)] ∧
    (timerEventCB st).timerPending = [] ∧
    (∀ (action : TState → TState) (st3 : TState),
       st3.timer_active = true → runTick action st3 = st3) := by
  refine ⟨?_, ?_, ?_, ?_, ?_, ?_, ?_, ?_, ?_⟩
  · simp [move, timerStart, timerStop, ht]
  · simp [move, timerStart, timerStop, ht]
  · simp [move, timerStart, timerStop, ht]
  · intro st2; simp [move, timerStart, timerStop, ht]
  · simp [timerEventCB, move]
  · simp [timerEventCB, move]
  · simp [timerEventCB, move]
  · simp [timerEventCB, move]
  · intro action st3 h3
    unfold runTick
    cases st3.under_test <;> simp [h3]

/-- Witness for C9 at a concrete positive duration. -/
theorem C9_scripted_motion_witness :
    (move 1 0 2 false emptyState).timerPending = [2] ∧
    (move 1 0 2 false emptyState).timer_active = true :=
  ⟨(C9_scripted_motion 1 0 2 emptyState (by decide)).2.1,
   (C9_scripted_motion 1 0 2 emptyState (by decide)).2.2.1⟩

/-- C3: an identification message whose serial is already in the Evaluated
Ledger makes the sequencer discard the Unit Record, surface an error, leave
the ledger and the Result Sink unchanged, keep the step where it is, and go
idle. -/
theorem C3_duplicate_serial_rejected (st : TState) (r : Robot)
    (msg : VersionInfoMsg)
    (h1 : st.under_test = some r)
    (h2 : r.device_ok Device.V_INFO = false)
    (h3 : ledgerHas st.evaluated msg.udid = true) :
    (versionInfoCB msg st).under_test = none ∧
    (versionInfoCB msg st).evaluated = st.evaluated ∧
    (versionInfoCB msg st).resultSink = st.resultSink ∧
    (versionInfoCB msg st).current_step = st.current_step ∧
    (versionInfoCB msg st).prompts = st.prompts ++ [LogLevel.Error] := by
  have hs : (setSerial r msg.udid).serial = msg.udid := rfl
  simp [versionInfoCB, h1, h2, versionCheck, hs, h3, showUserMsg]

/-- Witness for C3: a ledger already holding serial [5] rejects a unit that
announces [5]. -/
theorem C3_duplicate_serial_rejected_witness :
    (versionInfoCB ⟨[5], 1, 2, 3⟩
       { withRobot (freshRobot 1) GET_SERIAL_NUMBER with
           evaluated := [setSerial (freshRobot 0) [5]] }).under_test = none :=
  (C3_duplicate_serial_rejected _ (freshRobot 1) ⟨[5], 1, 2, 3⟩ rfl rfl
    (by decide)).1

/-- C6: the gyroscope verified flag is set exactly when the two legs'
wrapped yaw differences agree within the 0.05 tolerance; 0.80 versus 0.83
passes and 0.80 versus 0.90 fails. -/
theorem C6_gyro_tolerance (r : Robot)
    (h : r.device_ok Device.IMU_DEV = false) :
    ((testIMUCheck r).device_ok Device.IMU_DEV = true ↔
       |r.imu_data 1 - r.imu_data 3| ≤ GYRO_CAMERA_MAX_DIFF) ∧
    (testIMUCheck (gyroExample (80 / 100) (83 / 100))).device_ok
       Device.IMU_DEV = true ∧
    (testIMUCheck (gyroExample (80 / 100) (90 / 100))).device_ok
       Device.IMU_DEV = false := by
  have e1 : ∀ a b : ℚ, (gyroExample a b).imu_data 1 = a := fun a b => rfl
  have e3 : ∀ a b : ℚ, (gyroExample a b).imu_data 3 = b := fun a b => rfl
  have eo : ∀ a b : ℚ,
      (gyroExample a b).device_ok Device.IMU_DEV = false := fun a b => rfl
  refine ⟨?_, ?_, ?_⟩
  · unfold testIMUCheck
    split_ifs with hd
    · simp [setOk, Function.update, hd]
    · simp [h, hd]
  · unfold testIMUCheck
    rw [e1, e3, if_pos (by norm_num [GYRO_CAMERA_MAX_DIFF, abs_le])]
    simp [setOk, Function.update]
  · unfold testIMUCheck
    rw [e1, e3, if_neg (by norm_num [GYRO_CAMERA_MAX_DIFF, abs_le])]
    exact eo _ _

/-- Witness for C6 at the fresh robot (all imu data zero, within tolerance). -/
theorem C6_gyro_tolerance_witness :
    (testIMUCheck (freshRobot 0)).device_ok Device.IMU_DEV = true ↔
      |(freshRobot 0).imu_data 1 - (freshRobot 0).imu_data 3| ≤
        GYRO_CAMERA_MAX_DIFF :=
  (C6_gyro_tolerance (freshRobot 0) rfl).1

/-- C5 counterexample: the claim says the wrap lands in the half-open
interval (−π, π], but at input −π the code leaves −π unchanged, which is
not greater than −π. -/
theorem C5_wrap_counterexample :
    wrapYaw Real.pi (-Real.pi) = -Real.pi ∧
    ¬(-Real.pi < wrapYaw Real.pi (-Real.pi) ∧
      wrapYaw Real.pi (-Real.pi) ≤ Real.pi) := by
  have h1 : ¬((-Real.pi : ℝ) > Real.pi) := by nlinarith [Real.pi_pos]
  have h2 : ¬((-Real.pi : ℝ) < -Real.pi) := lt_irrefl _
  have he : wrapYaw Real.pi (-Real.pi) = -Real.pi := by
    unfold wrapYaw; rw [if_neg h1, if_neg h2]
  exact ⟨he, fun hc => absurd (he ▸ hc.1) (lt_irrefl _)⟩

/-- C5 (amended): for every input difference in (−3π, 3π] — which covers any
difference of two angles taken in (−π, π] — the single-correction wrap lands
in the closed interval [−π, π]. -/
theorem C5_wrap_range (d : ℝ) (h1 : -(3 * Real.pi) < d)
    (h2 : d ≤ 3 * Real.pi) :
    -Real.pi ≤ wrapYaw Real.pi d ∧ wrapYaw Real.pi d ≤ Real.pi := by
  unfold wrapYaw
  split_ifs with ha hb <;> constructor <;> nlinarith [Real.pi_pos]

/-- Witness for C5 at the concrete input 2π. -/
theorem C5_wrap_range_witness :
    -Real.pi ≤ wrapYaw Real.pi (2 * Real.pi) ∧
    wrapYaw Real.pi (2 * Real.pi) ≤ Real.pi :=
  C5_wrap_range (2 * Real.pi) (by nlinarith [Real.pi_pos])
    (by nlinarith [Real.pi_pos])

/-- All-zero observations make the charge wait loop time out at zero. -/
theorem chargeLoop_all_zero (w : ℕ → ℕ) :
    ∀ (fuel i : ℕ), (∀ j, j < i + fuel → w j = 0) →
      chargeLoop w fuel i 0 = 0 := by
  intro fuel
  induction fuel with
  | zero => intro i _; rfl
  | succ n ih =>
    intro i h
    have hw : w i = 0 := h i (by omega)
    simp only [chargeLoop, if_pos rfl, hw]
    exact ih (i + 1) (fun j hj => h j (by omega))

/-- C7: if no nonzero charging signal arrives within the 40-second timeout
budget the device stays unverified with exactly one error logged; otherwise
the device is verified exactly when the second sample exceeds the first by
at least MIN_POWER_CHARGED; v1 = 40, v2 = 55 gives delta 15 and passes. -/
theorem C7_charging (w : ℕ → ℕ) (v1 v2 : ℕ)
    (hw : ∀ j, j < 40 * frequency → w j = 0) :
    (measureCharge 0 w v1 v2).verified = false ∧
    (measureCharge 0 w v1 v2).errorCount = 1 ∧
    (∀ (v0 : ℕ) (w2 : ℕ → ℕ) (u1 u2 : ℕ),
       chargeLoop w2 (40 * frequency) 0 v0 ≠ 0 →
       ((measureCharge v0 w2 u1 u2).verified = true ↔
          MIN_POWER_CHARGED ≤ (u2 : ℤ) - (u1 : ℤ)) ∧
       (measureCharge v0 w2 u1 u2).errorCount = 0) ∧
    (measureCharge 0 (fun _ => 1) 40 55).verified = true ∧
    (measureCharge 0 (fun _ => 1) 40 55).delta = 15 := by
  have hz : chargeLoop w (40 * frequency) 0 0 = 0 :=
    chargeLoop_all_zero w (40 * frequency) 0 (fun j hj => hw j (by omega))
  refine ⟨?_, ?_, ?_, by decide, by decide⟩
  · simp [measureCharge, hz]
  · simp [measureCharge, hz]
  · intro v0 w2 u1 u2 hnz
    simp [measureCharge, hnz]

/-- Witness for C7: the all-zero observation stream leaves the device
unverified with one error. -/
theorem C7_charging_witness :
    (measureCharge 0 (fun _ => 0) 40 55).verified = false ∧
    (measureCharge 0 (fun _ => 0) 40 55).errorCount = 1 :=
  ⟨(C7_charging (fun _ => 0) 40 55 (fun _ _ => rfl)).1,
   (C7_charging (fun _ => 0) 40 55 (fun _ _ => rfl)).2.1⟩

/-- C2: during the button steps the expected button index is progress/2 and
the expected action 1 − progress mod 2 (press = 1, release = 0); a matching
event advances progress by one and a matching release sets that button's
verified flag; a non-matching event changes neither progress nor the
record; and the six correctly ordered events drive progress from 0 to 6
setting all three flags. -/
theorem C2_button_sequence :
    (∀ (st : TState) (r : Robot) (msg : ButtonEventMsg),
       st.under_test = some r → buttons_ok r = false →
       BUTTON_0_PRESSED ≤ st.current_step →
       st.current_step ≤ BUTTON_2_RELEASED →
       ((st.current_step - BUTTON_0_PRESSED) % 2 ^^^ 1 =
          1 - (st.current_step - BUTTON_0_PRESSED) % 2) ∧
       ((msg.button = (st.current_step - BUTTON_0_PRESSED) / 2 ∧
         msg.state = 1 - (st.current_step - BUTTON_0_PRESSED) % 2) →
          (buttonEventCB msg st).current_step = st.current_step + 1 ∧
          (msg.state = RELEASED →
             okOf (buttonEventCB msg st) (buttonDevice msg.button) = true)) ∧
       (¬(msg.button = (st.current_step - BUTTON_0_PRESSED) / 2 ∧
          msg.state = 1 - (st.current_step - BUTTON_0_PRESSED) % 2) →
          (buttonEventCB msg st).current_step = st.current_step ∧
          (buttonEventCB msg st).under_test = st.under_test)) ∧
    (buttonRun.current_step = BUTTON_0_PRESSED + 6 ∧
     okOf buttonRun Device.BUTTON_0 = true ∧
     okOf buttonRun Device.BUTTON_1 = true ∧
     okOf buttonRun Device.BUTTON_2 = true) := by
  constructor
  · intro st r msg h1 h2 h3 h4
    simp only [BUTTON_0_PRESSED, BUTTON_2_RELEASED] at h3 h4 ⊢
    have hxor : (st.current_step - 4) % 2 ^^^ 1 =
        1 - (st.current_step - 4) % 2 := by
      rcases Nat.mod_two_eq_zero_or_one (st.current_step - 4) with h | h <;>
        rw [h] <;> rfl
    refine ⟨hxor, ?_, ?_⟩
    · rintro ⟨hb, hs⟩
      have hc : msg.button = (st.current_step - 4) / 2 ∧
          msg.state = (st.current_step - 4) % 2 ^^^ 1 := ⟨hb, by omega⟩
      have hg1 : ¬((st.current_step = TEST_LEDS ∨
          st.current_step = TEST_SOUNDS ∨
          st.current_step = TEST_DIGITAL_IO_PORTS) ∧
          st.answer_req = true ∧ msg.state = RELEASED) := by
        rintro ⟨hg, -, -⟩
        simp only [TEST_LEDS, TEST_SOUNDS, TEST_DIGITAL_IO_PORTS] at hg
        omega
      simp only [buttonEventCB, h1, BUTTON_0_PRESSED, BUTTON_2_RELEASED]
      rw [if_neg hg1, if_neg (by simp [h2]), if_neg (by omega), if_pos hc]
      refine ⟨rfl, ?_⟩
      intro hs0
      simp only [RELEASED] at hs0
      simp [okOf, hs0, setOk, Function.update, RELEASED]
    · intro hnc
      have hc : ¬(msg.button = (st.current_step - 4) / 2 ∧
          msg.state = (st.current_step - 4) % 2 ^^^ 1) := by
        rintro ⟨hb, hs⟩
        exact hnc ⟨hb, by omega⟩
      by_cases hg1 : (st.current_step = TEST_LEDS ∨
          st.current_step = TEST_SOUNDS ∨
          st.current_step = TEST_DIGITAL_IO_PORTS) ∧
          st.answer_req = true ∧ msg.state = RELEASED
      · exfalso
        obtain ⟨hg, -, -⟩ := hg1
        simp only [TEST_LEDS, TEST_SOUNDS, TEST_DIGITAL_IO_PORTS] at hg
        omega
      · simp only [buttonEventCB, h1, BUTTON_0_PRESSED, BUTTON_2_RELEASED]
        rw [if_neg hg1, if_neg (by simp [h2]), if_neg (by omega), if_neg hc]
        exact ⟨rfl, by simp [addLog, h1]⟩
  · exact ⟨by decide, by decide, by decide, by decide⟩

/-- Witness for C2: a matching press of button 0 at the first button step
advances progress by one. -/
theorem C2_button_sequence_witness :
    (buttonEventCB ⟨0, 1⟩ (withRobot (freshRobot 0)
       BUTTON_0_PRESSED)).current_step =
      (withRobot (freshRobot 0) BUTTON_0_PRESSED).current_step + 1 :=
  ((C2_button_sequence.1 _ (freshRobot 0) ⟨0, 1⟩ rfl rfl (by decide)
      (by decide)).2.1 (by decide)).1

/-- C4 (code bug): on a unit-online event while a unit is mid-evaluation
the code force-finalizes the old record (Result Sink and ledger grow by
one) and gives the new record sequence id = ledger size, but instead of
resetting the current step to the start of the sequence it jumps to
TEST_DIGITAL_IO_PORTS (a debugging leftover, marked by the source comment
TODO INITIALIZATION) — here a regression from the analog step, neither a
single-step advance nor a reset to the first step.  The terminal
EVALUATION_COMPLETED action does reset the step to INITIALIZATION. -/
theorem C4_online_step_jump :
    (robotEventCB ⟨ONLINE⟩ c4State).current_step = TEST_DIGITAL_IO_PORTS ∧
    TEST_DIGITAL_IO_PORTS ≠ INITIALIZATION ∧
    TEST_DIGITAL_IO_PORTS ≠ GET_SERIAL_NUMBER ∧
    TEST_DIGITAL_IO_PORTS ≠ TEST_DC_ADAPTER ∧
    TEST_DIGITAL_IO_PORTS ≠ c4State.current_step + 1 ∧
    (robotEventCB ⟨ONLINE⟩ c4State).current_step < c4State.current_step ∧
    (robotEventCB ⟨ONLINE⟩ c4State).resultSink.length = 1 ∧
    (robotEventCB ⟨ONLINE⟩ c4State).evaluated.length = 1 ∧
    seqOf (robotEventCB ⟨ONLINE⟩ c4State) = some 1 ∧
    (evaluationCompletedAction
       (withRobot (freshRobot 0) EVALUATION_COMPLETED)).current_step =
      INITIALIZATION := by
  refine ⟨by decide, by decide, by decide, by decide, by decide, by decide,
    ?_, ?_, ?_, by decide⟩ <;> decide

/-- C1: parity-counter protocol.  For wheel-drop, cliff and power-plug the
expected next action is determined by measured-value mod 2 (even expects
engage, odd expects release); a matching event increments measured-value by
exactly one; reaching 2N (N = 2 for wheel-drop and cliff, N = 1 for
power-plug) sets the verified flag (and not before); a mismatched event
leaves the record and step untouched; a device already verified ignores
further events.  For bumpers, whose expectation is step-scheduled, the
counter parity (which tracks the step offset on every protocol run) equally
determines the expected action, matches increment the counter by one and a
release match sets the flag, while mismatches change nothing. -/
theorem C1_parity_counter :
    (∀ (st : TState) (r : Robot) (msg : WheelDropEventMsg),
       st.under_test = some r →
       st.current_step = TEST_WHEEL_DROP_SENSORS →
       (r.device_ok (wheelDevice msg.wheel) = true →
          wDropEventCB msg st = st) ∧
       (r.device_ok (wheelDevice msg.wheel) = false →
         (((msg.state = DROPPED ∧
              r.device_val (wheelDevice msg.wheel) % 2 = 0) ∨
           (msg.state = RAISED ∧
              r.device_val (wheelDevice msg.wheel) % 2 = 1)) ↔
            msg.state = (if r.device_val (wheelDevice msg.wheel) % 2 = 0
                         then DROPPED else RAISED)) ∧
         (((msg.state = DROPPED ∧
              r.device_val (wheelDevice msg.wheel) % 2 = 0) ∨
           (msg.state = RAISED ∧
              r.device_val (wheelDevice msg.wheel) % 2 = 1)) →
            valOf (wDropEventCB msg st) (wheelDevice msg.wheel) =
              r.device_val (wheelDevice msg.wheel) + 1 ∧
            (WHEEL_DROP_TESTS * 2 ≤
                r.device_val (wheelDevice msg.wheel) + 1 →
               okOf (wDropEventCB msg st) (wheelDevice msg.wheel) = true) ∧
            (r.device_val (wheelDevice msg.wheel) + 1 <
                WHEEL_DROP_TESTS * 2 →
               okOf (wDropEventCB msg st) (wheelDevice msg.wheel) =
                 false)) ∧
         (¬((msg.state = DROPPED ∧
               r.device_val (wheelDevice msg.wheel) % 2 = 0) ∨
            (msg.state = RAISED ∧
               r.device_val (wheelDevice msg.wheel) % 2 = 1)) →
            (wDropEventCB msg st).under_test = st.under_test ∧
            (wDropEventCB msg st).current_step = st.current_step))) ∧
    (∀ (st : TState) (r : Robot) (msg : CliffEventMsg),
       st.under_test = some r →
       st.current_step = TEST_CLIFF_SENSORS →
       (r.device_ok (cliffDevice msg.sensor) = true →
          cliffEventCB msg st = st) ∧
       (r.device_ok (cliffDevice msg.sensor) = false →
         (((msg.state = CLIFF_STATE ∧
              r.device_val (cliffDevice msg.sensor) % 2 = 0) ∨
           (msg.state = FLOOR_STATE ∧
              r.device_val (cliffDevice msg.sensor) % 2 = 1)) ↔
            msg.state = (if r.device_val (cliffDevice msg.sensor) % 2 = 0
                         then CLIFF_STATE else FLOOR_STATE)) ∧
         (((msg.state = CLIFF_STATE ∧
              r.device_val (cliffDevice msg.sensor) % 2 = 0) ∨
           (msg.state = FLOOR_STATE ∧
              r.device_val (cliffDevice msg.sensor) % 2 = 1)) →
            valOf (cliffEventCB msg st) (cliffDevice msg.sensor) =
              r.device_val (cliffDevice msg.sensor) + 1 ∧
            (CLIFF_SENSOR_TESTS * 2 ≤
                r.device_val (cliffDevice msg.sensor) + 1 →
               okOf (cliffEventCB msg st) (cliffDevice msg.sensor) =
                 true) ∧
            (r.device_val (cliffDevice msg.sensor) + 1 <
                CLIFF_SENSOR_TESTS * 2 →
               okOf (cliffEventCB msg st) (cliffDevice msg.sensor) =
                 false)) ∧
         (¬((msg.state = CLIFF_STATE ∧
               r.device_val (cliffDevice msg.sensor) % 2 = 0) ∨
            (msg.state = FLOOR_STATE ∧
               r.device_val (cliffDevice msg.sensor) % 2 = 1)) →
            (cliffEventCB msg st).under_test = st.under_test ∧
            (cliffEventCB msg st).current_step = st.current_step))) ∧
    (∀ (st : TState) (r : Robot) (msg : PowerSystemEventMsg),
       st.under_test = some r →
       (st.current_step = TEST_DC_ADAPTER ∨
        st.current_step = TEST_DOCKING_BASE) →
       (pwr_src_ok r = true → powerEventCB msg st = st) ∧
       (pwr_src_ok r = false →
         (r.device_ok (powerDevice st.current_step) = true →
            powerEventCB msg st = st) ∧
         (r.device_ok (powerDevice st.current_step) = false →
           (((((msg.event = PLUGGED_TO_ADAPTER ∧
                 st.current_step = TEST_DC_ADAPTER) ∨
                (msg.event = PLUGGED_TO_DOCKBASE ∧
                 st.current_step = TEST_DOCKING_BASE)) ∧
               r.device_val (powerDevice st.current_step) % 2 = 0) ∨
              (msg.event = UNPLUGGED ∧
               r.device_val (powerDevice st.current_step) % 2 = 1)) ↔
             msg.event =
               (if r.device_val (powerDevice st.current_step) % 2 = 0 then
                  (if st.current_step = TEST_DC_ADAPTER then
                     PLUGGED_TO_ADAPTER else PLUGGED_TO_DOCKBASE)
                else UNPLUGGED)) ∧
           (((((msg.event = PLUGGED_TO_ADAPTER ∧
                 st.current_step = TEST_DC_ADAPTER) ∨
                (msg.event = PLUGGED_TO_DOCKBASE ∧
                 st.current_step = TEST_DOCKING_BASE)) ∧
               r.device_val (powerDevice st.current_step) % 2 = 0) ∨
              (msg.event = UNPLUGGED ∧
               r.device_val (powerDevice st.current_step) % 2 = 1)) →
              valOf (powerEventCB msg st) (powerDevice st.current_step) =
                r.device_val (powerDevice st.current_step) + 1 ∧
              (POWER_PLUG_TESTS * 2 ≤
                  r.device_val (powerDevice st.current_step) + 1 →
                 okOf (powerEventCB msg st) (powerDevice st.current_step) =
                   true ∧
                 (powerEventCB msg st).current_step =
                   st.current_step + 1) ∧
              (r.device_val (powerDevice st.current_step) + 1 <
                  POWER_PLUG_TESTS * 2 →
                 okOf (powerEventCB msg st)
                   (powerDevice st.current_step) = false)) ∧
           (¬((((msg.event = PLUGGED_TO_ADAPTER ∧
                  st.current_step = TEST_DC_ADAPTER) ∨
                 (msg.event = PLUGGED_TO_DOCKBASE ∧
                  st.current_step = TEST_DOCKING_BASE)) ∧
                r.device_val (powerDevice st.current_step) % 2 = 0) ∨
               (msg.event = UNPLUGGED ∧
                r.device_val (powerDevice st.current_step) % 2 = 1)) →
              (powerEventCB msg st).under_test = st.under_test ∧
              (powerEventCB msg st).current_step = st.current_step)))) ∧
    (∀ (st : TState) (r : Robot) (msg : BumperEventMsg),
       st.under_test = some r →
       bumpers_ok r = false →
       CENTER_BUMPER_PRESSED ≤ st.current_step →
       st.current_step ≤ LEFT_BUMPER_RELEASED →
       ((r.device_val (bumperDevice
            (((st.current_step - CENTER_BUMPER_PRESSED) / 3 + 1) % 3)) % 2 =
          (((st.current_step - CENTER_BUMPER_PRESSED) % 3 : ℕ) : ℤ)) →
          ((st.current_step - CENTER_BUMPER_PRESSED) % 3) ^^^ 1 =
            (if r.device_val (bumperDevice
                 (((st.current_step - CENTER_BUMPER_PRESSED) / 3 + 1) % 3))
                 % 2 = 0
             then PRESSED else RELEASED)) ∧
       ((msg.bumper =
           ((st.current_step - CENTER_BUMPER_PRESSED) / 3 + 1) % 3 ∧
         msg.state =
           ((st.current_step - CENTER_BUMPER_PRESSED) % 3) ^^^ 1) →
          valOf (bumperEventCB msg st) (bumperDevice msg.bumper) =
            r.device_val (bumperDevice msg.bumper) + 1 ∧
          (msg.state = RELEASED →
             okOf (bumperEventCB msg st) (bumperDevice msg.bumper) =
               true)) ∧
       (¬(msg.bumper =
            ((st.current_step - CENTER_BUMPER_PRESSED) / 3 + 1) % 3 ∧
          msg.state =
            ((st.current_step - CENTER_BUMPER_PRESSED) % 3) ^^^ 1) →
          (bumperEventCB msg st).under_test = st.under_test ∧
          (bumperEventCB msg st).current_step = st.current_step)) := by
  refine ⟨?_, ?_, ?_, ?_⟩
  · -- wheel drop
    intro st r msg h1 h2
    constructor
    · intro hok
      simp [wDropEventCB, h1, h2, hok]
    · intro hok
      refine ⟨?_, ?_, ?_⟩
      · by_cases hv : r.device_val (wheelDevice msg.wheel) % 2 = 0
        · simp [hv, DROPPED, RAISED]
        · have hv1 : r.device_val (wheelDevice msg.wheel) % 2 = 1 := by
            omega
          simp [hv1, DROPPED, RAISED]
      · intro hm
        simp only [wDropEventCB, h1]
        rw [if_neg (by simp [h2]), if_neg (by simp [hok]), if_pos hm]
        simp only [incVal, setVal, setOk, Function.update_same]
        split_ifs with h4 h5 <;>
          refine ⟨by simp [valOf, addLog, Function.update], ?_, ?_⟩
        · intro hge; simp [okOf, Function.update]
        · intro hlt; exact absurd h4 (by omega)
        · intro hge; simp [okOf, Function.update]
        · intro hlt; exact absurd h4 (by omega)
        · intro hge; exact absurd hge h4
        · intro hlt; simp [okOf, addLog, Function.update, hok]
      · intro hm
        simp only [wDropEventCB, h1]
        rw [if_neg (by simp [h2]), if_neg (by simp [hok]), if_neg hm]
        exact ⟨by simp [addLog, h1], rfl⟩
  · -- cliff
    intro st r msg h1 h2
    constructor
    · intro hok
      simp [cliffEventCB, h1, h2, hok]
    · intro hok
      refine ⟨?_, ?_, ?_⟩
      · by_cases hv : r.device_val (cliffDevice msg.sensor) % 2 = 0
        · simp [hv, CLIFF_STATE, FLOOR_STATE]
        · have hv1 : r.device_val (cliffDevice msg.sensor) % 2 = 1 := by
            omega
          simp [hv1, CLIFF_STATE, FLOOR_STATE]
      · intro hm
        simp only [cliffEventCB, h1]
        rw [if_neg (by simp [h2]), if_neg (by simp [hok]), if_pos hm]
        simp only [incVal, setVal, setOk, Function.update_same]
        split_ifs with h4 h5 <;>
          refine ⟨by simp [valOf, addLog, Function.update], ?_, ?_⟩
        · intro hge; simp [okOf, Function.update]
        · intro hlt; exact absurd h4 (by omega)
        · intro hge; simp [okOf, Function.update]
        · intro hlt; exact absurd h4 (by omega)
        · intro hge; exact absurd hge h4
        · intro hlt; simp [okOf, addLog, Function.update, hok]
      · intro hm
        simp only [cliffEventCB, h1]
        rw [if_neg (by simp [h2]), if_neg (by simp [hok]), if_neg hm]
        exact ⟨by simp [addLog, h1], rfl⟩
  · -- power plug
    intro st r msg h1 hstep
    constructor
    · intro hpw
      simp [powerEventCB, h1, hpw]
    · intro hpw
      have hstep2 : ¬(st.current_step ≠ TEST_DC_ADAPTER ∧
          st.current_step ≠ TEST_DOCKING_BASE) := by
        rcases hstep with h | h <;> simp [h]
      constructor
      · intro hok
        simp only [powerEventCB, h1]
        rw [if_neg (by simp [hpw]), if_neg hstep2, if_pos (by simp [hok])]
      · intro hok
        refine ⟨?_, ?_, ?_⟩
        · by_cases hv :
              r.device_val (powerDevice st.current_step) % 2 = 0
          · rw [if_pos hv]
            rcases hstep with h | h
            · rw [h] at hv ⊢
              rw [if_pos rfl]
              constructor
              · rintro (⟨hplug, -⟩ | ⟨-, hodd⟩)
                · rcases hplug with ⟨he, -⟩ | ⟨-, hcon⟩
                  · exact he
                  · exact absurd hcon (by decide)
                · omega
              · intro he
                exact Or.inl ⟨Or.inl ⟨he, rfl⟩, hv⟩
            · rw [h] at hv ⊢
              rw [if_neg (by decide)]
              constructor
              · rintro (⟨hplug, -⟩ | ⟨-, hodd⟩)
                · rcases hplug with ⟨-, hcon⟩ | ⟨he, -⟩
                  · exact absurd hcon (by decide)
                  · exact he
                · omega
              · intro he
                exact Or.inl ⟨Or.inr ⟨he, rfl⟩, hv⟩
          · have hv1 :
                r.device_val (powerDevice st.current_step) % 2 = 1 := by
              have := Int.emod_nonneg
                (r.device_val (powerDevice st.current_step))
                (show (2 : ℤ) ≠ 0 by decide)
              have := Int.emod_lt_of_pos
                (r.device_val (powerDevice st.current_step))
                (show (0 : ℤ) < 2 by decide)
              omega
            rw [if_neg hv]
            constructor
            · rintro (⟨-, heven⟩ | ⟨he, -⟩)
              · omega
              · exact he
            · intro he
              exact Or.inr ⟨he, hv1⟩
        · intro hm
          simp only [powerEventCB, h1]
          rw [if_neg (by simp [hpw]), if_neg hstep2,
            if_neg (by simp [hok]), if_pos hm]
          simp only [incVal, setVal, setOk, Function.update_same]
          split_ifs with h4 <;>
            refine ⟨by simp [valOf, addLog, Function.update], ?_, ?_⟩
          · intro hge
            simp [okOf, addLog, Function.update]
          · intro hlt; exact absurd h4 (by omega)
          · intro hge; exact absurd hge h4
          · intro hlt; simp [okOf, addLog, Function.update, hok]
        · intro hm
          simp only [powerEventCB, h1]
          rw [if_neg (by simp [hpw]), if_neg hstep2,
            if_neg (by simp [hok]), if_neg hm]
          exact ⟨by simp [addLog, h1], rfl⟩
  · -- bumpers
    intro st r msg h1 h2 h3 h4
    refine ⟨?_, ?_, ?_⟩
    · intro hv
      have ho : (st.current_step - CENTER_BUMPER_PRESSED) % 3 = 0 ∨
          (st.current_step - CENTER_BUMPER_PRESSED) % 3 = 1 ∨
          (st.current_step - CENTER_BUMPER_PRESSED) % 3 = 2 := by omega
      rcases ho with h | h | h
      · rw [h] at hv ⊢
        simp only [Nat.cast_zero] at hv
        rw [if_pos hv]
        decide
      · rw [h] at hv ⊢
        simp only [Nat.cast_one] at hv
        rw [if_neg (by omega)]
        decide
      · rw [h] at hv
        exfalso
        have : (0 : ℤ) ≤ r.device_val (bumperDevice
            (((st.current_step - CENTER_BUMPER_PRESSED) / 3 + 1) % 3)) % 2 ∧
            r.device_val (bumperDevice
            (((st.current_step - CENTER_BUMPER_PRESSED) / 3 + 1) % 3)) % 2
              < 2 :=
          ⟨Int.emod_nonneg _ (by omega), Int.emod_lt_of_pos _ (by omega)⟩
        omega
    · rintro ⟨hb, hs⟩
      simp only [CENTER_BUMPER_PRESSED, LEFT_BUMPER_RELEASED] at h3 h4 hb hs
      simp only [bumperEventCB, h1, CENTER_BUMPER_PRESSED,
        LEFT_BUMPER_RELEASED]
      rw [if_neg (by simp [h2]), if_neg (by omega), if_pos ⟨hb, hs⟩]
      constructor
      · by_cases hp : msg.state = PRESSED
        · rw [if_pos hp]
          simp only [move, timerStart, timerStop]
          split_ifs <;>
            simp [valOf, addLog, incVal, setVal, Function.update]
        · rw [if_neg hp]
          simp [valOf, addLog, incVal, setVal, setOk, Function.update]
      · intro hrel
        rw [if_neg (by simp [hrel, RELEASED, PRESSED])]
        simp [okOf, addLog, incVal, setVal, setOk, Function.update]
    · intro hm
      simp only [CENTER_BUMPER_PRESSED, LEFT_BUMPER_RELEASED] at h3 h4 hm
      simp only [bumperEventCB, h1, CENTER_BUMPER_PRESSED,
        LEFT_BUMPER_RELEASED]
      rw [if_neg (by simp [h2]), if_neg (by omega), if_neg hm]
      exact ⟨by simp [addLog, h1], rfl⟩

/-- Witness for C1: concrete first matching events on a fresh unit. -/
theorem C1_parity_counter_witness :
    valOf (wDropEventCB ⟨0, 1⟩
        (withRobot (freshRobot 0) TEST_WHEEL_DROP_SENSORS))
      (wheelDevice 0) = (freshRobot 0).device_val (wheelDevice 0) + 1 ∧
    valOf (cliffEventCB ⟨0, 1⟩
        (withRobot (freshRobot 0) TEST_CLIFF_SENSORS))
      (cliffDevice 0) = (freshRobot 0).device_val (cliffDevice 0) + 1 ∧
    okOf (powerEventCB ⟨0⟩ pwrWitnessState)
      (powerDevice TEST_DC_ADAPTER) = true := by
  refine ⟨?_, ?_, ?_⟩
  · exact (((C1_parity_counter.1 _ (freshRobot 0) ⟨0, 1⟩ rfl rfl).2
      rfl).2.1 (by decide)).1
  · exact (((C1_parity_counter.2.1 _ (freshRobot 0) ⟨0, 1⟩ rfl rfl).2
      rfl).2.1 (by decide)).1
  · have X := C1_parity_counter.2.2.1 pwrWitnessState
      (setVal (freshRobot 0) Device.PWR_JACK 1) ⟨0⟩ rfl (Or.inl rfl)
    exact ((((X.2 rfl).2 rfl).2.1 (by decide)).2.1 (by decide)).1

/-- Decrementing a value with a nonzero low 16-bit field leaves every bit
at position 16 and above unchanged. -/
theorem testBit_pred_high (x n : ℕ) (h16 : 16 ≤ n)
    (hc : x &&& 0xFFFF ≠ 0) : (x - 1).testBit n = x.testBit n := by
  have he := Nat.and_pow_two_sub_one_eq_mod x 16
  norm_num at he
  rw [he] at hc
  have hdiv : (x - 1) / 2 ^ n = x / 2 ^ n := by
    have h2 : (2 : ℕ) ^ n = 65536 * 2 ^ (n - 16) := by
      rw [show (65536 : ℕ) = 2 ^ 16 by norm_num, ← pow_add]
      congr 1
      omega
    rw [h2, ← Nat.div_div_eq_div_mul, ← Nat.div_div_eq_div_mul]
    congr 1
    omega
  rw [Nat.testBit_to_div_mod, Nat.testBit_to_div_mod, hdiv]

/-- maskStep never clears a set bit. -/
theorem maskStep_mono (p : ℕ) (c : Prop) [Decidable c] (val n : ℕ)
    (h : val.testBit n = true) : (maskStep p c val).testBit n = true := by
  unfold maskStep
  split_ifs with hc
  · simp [Nat.testBit_or, h]
  · exact h

/-- A bit at position 16 or above set by maskStep either was already set or
is the step's own mask bit, in which case the threshold condition held. -/
theorem maskStep_origin (p : ℕ) (c : Prop) [Decidable c] (val n : ℕ)
    (hn : 16 ≤ n) (h : (maskStep p c val).testBit n = true) :
    val.testBit n = true ∨ (p = n ∧ c) := by
  unfold maskStep at h
  split_ifs at h with hc
  · have h20 : (frequency : ℕ).testBit n = false := by
      apply Nat.testBit_lt_two_pow
      calc frequency < 2 ^ 16 := by norm_num [frequency]
        _ ≤ 2 ^ n := Nat.pow_le_pow_right (by norm_num) hn
    simp only [Nat.testBit_or, h20, Bool.or_false, Bool.or_eq_true] at h
    rcases h with h | h
    · exact Or.inl h
    · rw [Nat.testBit_two_pow] at h
      exact Or.inr ⟨of_decide_eq_true h, hc.2⟩
  · exact Or.inl h

/-- maskStep either leaves the value unchanged or switches the pulse on
(bit 2 of int(frequency) = 20). -/
theorem maskStep_pulse (p : ℕ) (c : Prop) [Decidable c] (val : ℕ) :
    maskStep p c val = val ∨ (maskStep p c val).testBit 2 = true := by
  unfold maskStep
  split_ifs with hc
  · right
    have h20 : (frequency : ℕ).testBit 2 = true := by decide
    simp [Nat.testBit_or, h20]
  · left; rfl

/-- The per-channel cover step never clears a set bit. -/
theorem coverStep_mono (mins maxs : Fin 4 → ℤ) (j : Fin 4) (val n : ℕ)
    (h : val.testBit n = true) :
    (coverStep mins maxs val j).testBit n = true :=
  maskStep_mono _ _ _ _ (maskStep_mono _ _ _ _ h)

/-- A covered-low bit after a channel's cover step was already covered or
is this channel's bit with its minimum at or below the threshold. -/
theorem coverStep_origin_low (mins maxs : Fin 4 → ℤ) (j i : Fin 4)
    (val : ℕ)
    (h : (coverStep mins maxs val j).testBit (16 + (i : ℕ)) = true) :
    val.testBit (16 + (i : ℕ)) = true ∨
      mins i ≤ A_INPUT_MIN_THRESHOLD := by
  have hj := j.isLt
  have hi := i.isLt
  rcases maskStep_origin (24 + (j : ℕ)) _ _ (16 + (i : ℕ)) (by omega) h
    with h1 | ⟨hp, -⟩
  · rcases maskStep_origin (16 + (j : ℕ)) _ _ (16 + (i : ℕ)) (by omega) h1
      with h2 | ⟨hp, hc⟩
    · exact Or.inl h2
    · have hji : j = i := Fin.ext (by omega)
      rw [hji] at hc
      exact Or.inr hc
  · omega

/-- A covered-high bit after a channel's cover step was already covered or
is this channel's bit with its maximum at or above the threshold. -/
theorem coverStep_origin_high (mins maxs : Fin 4 → ℤ) (j i : Fin 4)
    (val : ℕ)
    (h : (coverStep mins maxs val j).testBit (24 + (i : ℕ)) = true) :
    val.testBit (24 + (i : ℕ)) = true ∨
      A_INPUT_MAX_THRESHOLD ≤ maxs i := by
  have hj := j.isLt
  have hi := i.isLt
  rcases maskStep_origin (24 + (j : ℕ)) _ _ (24 + (i : ℕ)) (by omega) h
    with h1 | ⟨hp, hc⟩
  · rcases maskStep_origin (16 + (j : ℕ)) _ _ (24 + (i : ℕ)) (by omega) h1
      with h2 | ⟨hp, -⟩
    · exact Or.inl h2
    · omega
  · have hji : j = i := Fin.ext (by omega)
    rw [hji] at hc
    exact Or.inr hc

/-- The per-channel cover step either changes nothing or switches the pulse
countdown on. -/
theorem coverStep_pulse (mins maxs : Fin 4 → ℤ) (j : Fin 4) (val : ℕ) :
    coverStep mins maxs val j = val ∨
      (coverStep mins maxs val j).testBit 2 = true := by
  rcases maskStep_pulse (16 + (j : ℕ))
      (mins j ≤ A_INPUT_MIN_THRESHOLD) val with hlo | hlo
  · unfold coverStep coverHighStep coverLowStep
    rw [hlo]
    exact maskStep_pulse _ _ _
  · right
    exact maskStep_mono _ _ _ _ hlo

/-- Bit persistence through the channel fold. -/
theorem foldl_testBit_mono {α : Type} (g : ℕ → α → ℕ)
    (hmono : ∀ (j : α) (x n : ℕ), x.testBit n = true →
      (g x j).testBit n = true)
    (l : List α) (x n : ℕ) (h : x.testBit n = true) :
    (l.foldl g x).testBit n = true := by
  induction l generalizing x with
  | nil => exact h
  | cons a t ih => exact ih (g x a) (hmono a x n h)

/-- Origin of a bit set somewhere along the channel fold. -/
theorem foldl_origin {α : Type} (g : ℕ → α → ℕ) (m : ℕ) (Q : Prop)
    (h : ∀ (j : α) (x : ℕ), (g x j).testBit m = true →
      x.testBit m = true ∨ Q)
    (l : List α) (x : ℕ)
    (hafter : (l.foldl g x).testBit m = true) :
    x.testBit m = true ∨ Q := by
  induction l generalizing x with
  | nil => exact Or.inl hafter
  | cons a t ih =>
    rcases ih (g x a) hafter with h1 | h1
    · exact h a x h1
    · exact Or.inr h1

/-- A bit newly set along the channel fold switches the pulse countdown on. -/
theorem foldl_pulse {α : Type} (g : ℕ → α → ℕ) (m : ℕ)
    (hmono : ∀ (j : α) (x n : ℕ), x.testBit n = true →
      (g x j).testBit n = true)
    (hpulse : ∀ (j : α) (x : ℕ), g x j = x ∨ (g x j).testBit 2 = true)
    (l : List α) (x : ℕ)
    (hafter : (l.foldl g x).testBit m = true)
    (hbefore : x.testBit m = false) :
    (l.foldl g x).testBit 2 = true := by
  induction l generalizing x with
  | nil =>
    rw [List.foldl_nil] at hafter
    simp [hbefore] at hafter
  | cons a t ih =>
    rw [List.foldl_cons] at hafter ⊢
    by_cases hax : (g x a).testBit m = true
    · rcases hpulse a x with he | h2
      · rw [he] at hax
        simp [hbefore] at hax
      · exact foldl_testBit_mono g hmono t (g x a) 2 h2
    · exact ih (g x a) hafter (by simpa using hax)

/-- A value whose pulse bit 2 is set has a nonzero countdown field. -/
theorem countdown_pos_of_bit2 (v : ℕ) (h : v.testBit 2 = true) :
    aiCountdown v ≠ 0 := by
  unfold aiCountdown
  intro hz
  have he := Nat.and_pow_two_sub_one_eq_mod v 16
  norm_num at he
  rw [he] at hz
  have hb : (v % 65536).testBit 2 = false := by rw [hz]; simp
  rw [show (65536 : ℕ) = 2 ^ 16 by norm_num,
    Nat.testBit_mod_two_pow] at hb
  simp [h] at hb

/-- The countdown decrement of a tick leaves cover bits unchanged. -/
theorem tickDecr_testBit (v n : ℕ) (h16 : 16 ≤ n) :
    (if 0 < aiCountdown v then v - 1 else v).testBit n = v.testBit n := by
  split_ifs with hc
  · exact testBit_pred_high v n h16 (by unfold aiCountdown at hc; omega)
  · rfl

/-- C8: a channel becomes covered-low only once its running minimum is at
or below the fixed lower threshold, covered-high only once its running
maximum is at or above the upper threshold; each new covering switches the
indicator-pulse countdown on; and the step completes — verified flag set
and step advanced — exactly at the full pattern, in which every channel is
covered both ways and the countdown is zero. -/
theorem C8_analog_threshold_scan :
    (∀ (f : Bool) (mins maxs : Fin 4 → ℤ) (val0 : ℕ) (i : Fin 4),
       covLow (analogTick f mins maxs val0).1 (i : ℕ) = true →
       covLow (if f then 0 else val0) (i : ℕ) = true ∨
         mins i ≤ A_INPUT_MIN_THRESHOLD) ∧
    (∀ (f : Bool) (mins maxs : Fin 4 → ℤ) (val0 : ℕ) (i : Fin 4),
       covHigh (analogTick f mins maxs val0).1 (i : ℕ) = true →
       covHigh (if f then 0 else val0) (i : ℕ) = true ∨
         A_INPUT_MAX_THRESHOLD ≤ maxs i) ∧
    (∀ (f : Bool) (mins maxs : Fin 4 → ℤ) (val0 : ℕ) (i : Fin 4),
       covLow (analogTick f mins maxs val0).1 (i : ℕ) = true →
       covLow (if f then 0 else val0) (i : ℕ) = false →
       aiCountdown (analogTick f mins maxs val0).1 ≠ 0) ∧
    (∀ (f : Bool) (mins maxs : Fin 4 → ℤ) (val0 : ℕ) (i : Fin 4),
       covHigh (analogTick f mins maxs val0).1 (i : ℕ) = true →
       covHigh (if f then 0 else val0) (i : ℕ) = false →
       aiCountdown (analogTick f mins maxs val0).1 ≠ 0) ∧
    (∀ (f : Bool) (mins maxs : Fin 4 → ℤ) (val0 : ℕ),
       (analogTick f mins maxs val0).2 = true →
       (analogTick f mins maxs val0).1 = 0x0F0F0000 ∧
       aiCountdown (analogTick f mins maxs val0).1 = 0 ∧
       ∀ i : Fin 4,
         covLow (analogTick f mins maxs val0).1 (i : ℕ) = true ∧
         covHigh (analogTick f mins maxs val0).1 (i : ℕ) = true) ∧
    (∀ (f : Bool) (st : TState) (r : Robot), st.under_test = some r →
       (((testAnalogIn f st).current_step = st.current_step + 1 ∧
         okOf (testAnalogIn f st) Device.A_INPUT = true) ↔
        (analogTick f (fun i => (r.analog_in i).amin)
           (fun i => (r.analog_in i).amax)
           (r.device_val Device.A_INPUT).toNat).2 = true)) := by
  have hfirst : ∀ (f : Bool) (mins maxs : Fin 4 → ℤ) (val0 : ℕ),
      (analogTick f mins maxs val0).1 =
        (List.finRange 4).foldl (coverStep mins maxs)
          (if 0 < aiCountdown (if f then 0 else val0) then
             (if f then 0 else val0) - 1
           else (if f then 0 else val0)) := fun _ _ _ _ => rfl
  refine ⟨?_, ?_, ?_, ?_, ?_, ?_⟩
  · intro f mins maxs val0 i h
    rw [covLow, hfirst] at h
    rcases foldl_origin (coverStep mins maxs) (16 + (i : ℕ))
        (mins i ≤ A_INPUT_MIN_THRESHOLD)
        (fun j x hx => coverStep_origin_low mins maxs j i x hx)
        (List.finRange 4) _ h with h1 | h1
    · left
      rw [covLow, ← tickDecr_testBit _ _ (by omega)]
      exact h1
    · exact Or.inr h1
  · intro f mins maxs val0 i h
    rw [covHigh, hfirst] at h
    rcases foldl_origin (coverStep mins maxs) (24 + (i : ℕ))
        (A_INPUT_MAX_THRESHOLD ≤ maxs i)
        (fun j x hx => coverStep_origin_high mins maxs j i x hx)
        (List.finRange 4) _ h with h1 | h1
    · left
      rw [covHigh, ← tickDecr_testBit _ _ (by omega)]
      exact h1
    · exact Or.inr h1
  · intro f mins maxs val0 i h hnew
    rw [covLow, hfirst] at h
    rw [covLow] at hnew
    rw [hfirst]
    apply countdown_pos_of_bit2
    refine foldl_pulse (coverStep mins maxs) (16 + (i : ℕ))
      (fun j x n hx => coverStep_mono mins maxs j x n hx)
      (fun j x => coverStep_pulse mins maxs j x) (List.finRange 4) _ h ?_
    rw [tickDecr_testBit _ _ (by omega)]
    exact hnew
  · intro f mins maxs val0 i h hnew
    rw [covHigh, hfirst] at h
    rw [covHigh] at hnew
    rw [hfirst]
    apply countdown_pos_of_bit2
    refine foldl_pulse (coverStep mins maxs) (24 + (i : ℕ))
      (fun j x n hx => coverStep_mono mins maxs j x n hx)
      (fun j x => coverStep_pulse mins maxs j x) (List.finRange 4) _ h ?_
    rw [tickDecr_testBit _ _ (by omega)]
    exact hnew
  · intro f mins maxs val0 h
    have hval : (analogTick f mins maxs val0).1 = 0x0F0F0000 :=
      of_decide_eq_true h
    refine ⟨hval, ?_, ?_⟩
    · rw [hval]; decide
    · intro i
      rw [hval]
      fin_cases i <;> exact ⟨by decide, by decide⟩
  · intro f st r h1
    simp only [testAnalogIn, h1]
    cases hres : (analogTick f (fun i => (r.analog_in i).amin)
        (fun i => (r.analog_in i).amax)
        (r.device_val Device.A_INPUT).toNat).2
    · rw [if_neg (by simp)]
      constructor
      · rintro ⟨hstep, -⟩
        have hstep2 : st.current_step = st.current_step + 1 := hstep
        exact absurd hstep2 (by omega)
      · intro hfalse
        simp at hfalse
    · rw [if_pos rfl]
      constructor
      · intro _
        rfl
      · intro _
        exact ⟨rfl, by simp [okOf, addLog, setOk, setVal, Function.update]⟩

/-- Witness for C8 at a concrete pattern: a tick from the all-covered value
with a countdown of 1 completes the step, and covering channel 0 low from
zero requires its minimum at the threshold. -/
theorem C8_analog_threshold_scan_witness :
    (analogTick false (fun _ => 0) (fun _ => 0) 0x0F0F0001).1 =
      0x0F0F0000 ∧
    (covLow (if false then 0 else 0) 0 = true ∨
      (fun _ => (0 : ℤ)) (0 : Fin 4) ≤ A_INPUT_MIN_THRESHOLD) :=
  ⟨(C8_analog_threshold_scan.2.2.2.2.1 false (fun _ => 0) (fun _ => 0)
      0x0F0F0001 (by decide)).1,
   C8_analog_threshold_scan.1 false (fun _ => 0) (fun _ => 0) 0 0
     (by decide)⟩

end KobukiFactoryTest
